import Mathlib

/-!
Shallow embedding of the TerminalScreener mentions service (`src/server.js`,
first variant: the cached / rate-limited `/api/x-mentions` handler together
with `calculateTrend`, `getCoinName` and `isDexScreenerListed`).

Modelling conventions:
* JavaScript numbers that hold millisecond timestamps are modelled as `ℤ`;
  tweet counts and the request counter as `ℕ`; the exact arithmetic of
  `(current - previous) / previous * 100` is modelled over `ℚ`.
* `x.toFixed(1)` renders a number to one decimal place; we model the rendered
  value by its number of tenths, `round (x * 10) : ℤ` (the ECMAScript
  `toFixed` rounding picks the closest candidate, ties away from zero for
  nonnegative input, which is `round` on `ℚ`).
* `Math.random()` values are inputs (`ℚ` in `[0,1)`), one pair per upstream
  call, and the upstream API is an oracle `ℕ → UpstreamResp` indexed by the
  number of upstream calls already issued in the run.
* The Express query layer hands the handler `symbols.split(',')`; the
  embedding takes that already-split `List String` as input.
* JavaScript `Map` objects are modelled as association lists with
  first-match lookup and in-place replacement on `set`.
* `Array.prototype.sort` is required to be stable by ECMAScript; it is
  modelled by `List.insertionSort`, which is stable, using the comparator
  from the source (default string comparison resp. `b.mentions - a.mentions`).
-/

/-- Cache lifetime in milliseconds: `CACHE_DURATION = 10 * 60 * 1000`. -/
def CACHE_DURATION : ℤ := 10 * 60 * 1000

/-- Request budget per window: `MAX_REQUESTS_PER_WINDOW = 25`. -/
def MAX_REQUESTS_PER_WINDOW : ℕ := 25

/-- Cooldown set on budget exhaustion or upstream 429: `15 * 60 * 1000` ms. -/
def COOLDOWN_MS : ℤ := 15 * 60 * 1000

/-- Lexicographic comparison of character lists by code point, the order
underlying the default `Array.prototype.sort` string comparison. -/
def charListLt : List Char → List Char → Bool
  | [], [] => false
  | [], _ :: _ => true
  | _ :: _, [] => false
  | a :: as, b :: bs =>
    if a.toNat < b.toNat then true
    else if b.toNat < a.toNat then false
    else charListLt as bs

/-- String comparison used by the default `symbolList.sort()`: `a` may be
placed before `b` iff `b` is not strictly smaller than `a`. -/
def jsStringLe (a b : String) : Bool := !(charListLt b.data a.data)

/-- Propositional form of `jsStringLe`, for `List.insertionSort`. -/
def jsSortLe (a b : String) : Prop := jsStringLe a b = true

instance : DecidableRel jsSortLe := fun _ _ => instDecidableEqBool _ _

/-- Model of `symbolList.sort()` (stable sort under the default string
comparison). -/
def sortStrings (l : List String) : List String := l.insertionSort jsSortLe

/-- Model of `Array.prototype.join(',')`. -/
def joinComma : List String → String
  | [] => ""
  | [s] => s
  | s :: rest => s ++ "," ++ joinComma rest

/-- Model of `symbol.toUpperCase()` for the ASCII ticker strings. -/
def charUpper (c : Char) : Char :=
  if 97 ≤ c.toNat ∧ c.toNat ≤ 122 then Char.ofNat (c.toNat - 32) else c

/-- Uppercasing on strings, `s.toUpperCase()`. -/
def jsToUpperCase (s : String) : String := String.mk (s.data.map charUpper)

/-- Coin name table of `getCoinName` in `server.js` (first variant). -/
def coinNames : List (String × String) :=
  [("BTC", "Bitcoin"), ("ETH", "Ethereum"), ("BNB", "Binance Coin"),
   ("SOL", "Solana"), ("XRP", "XRP"), ("USDC", "USD Coin"),
   ("ADA", "Cardano"), ("DOGE", "Dogecoin"), ("AVAX", "Avalanche"),
   ("TRX", "TRON"), ("DOT", "Polkadot"), ("TON", "Toncoin"),
   ("MATIC", "Polygon"), ("LINK", "Chainlink"), ("ICP", "Internet Computer"),
   ("SHIB", "Shiba Inu"), ("UNI", "Uniswap"), ("LTC", "Litecoin"),
   ("BCH", "Bitcoin Cash"), ("NEAR", "NEAR Protocol"), ("AAVE", "Aave"),
   ("CRV", "Curve DAO Token"), ("COMP", "Compound"), ("MKR", "MakerDAO"),
   ("SUSHI", "SushiSwap"), ("YFI", "yearn.finance"), ("SNX", "Synthetix"),
   ("BAL", "Balancer"), ("1INCH", "1inch"), ("LDO", "Lido DAO"),
   ("PEPE", "Pepe"), ("WIF", "dogwifhat"), ("BONK", "Bonk"),
   ("FLOKI", "FLOKI"), ("MEME", "Memecoin"), ("ARB", "Arbitrum"),
   ("OP", "Optimism"), ("LRC", "Loopring"), ("IMX", "Immutable X"),
   ("AXS", "Axie Infinity"), ("SAND", "The Sandbox"),
   ("MANA", "Decentraland"), ("ENJ", "Enjin Coin"), ("GALA", "Gala"),
   ("FIL", "Filecoin"), ("THETA", "Theta Network"), ("VET", "VeChain"),
   ("ALGO", "Algorand"), ("FLOW", "Flow"), ("FET", "Fetch.ai"),
   ("RNDR", "Render Token"), ("TAO", "Bittensor")]

/-- `getCoinName(symbol)`: table lookup on the uppercased symbol, falling
back to the input symbol unchanged. -/
def getCoinName (symbol : String) : String :=
  ((coinNames.lookup (jsToUpperCase symbol)).getD symbol)

/-- Allow-list of `isDexScreenerListed` in `server.js` (first variant). -/
def dexTokens : List String :=
  ["BTC", "ETH", "BNB", "SOL", "MATIC", "AVAX", "DOT", "UNI", "LINK",
   "AAVE", "CRV", "SUSHI", "COMP", "MKR", "YFI", "SNX", "BAL", "1INCH",
   "LDO", "PEPE", "SHIB", "WIF", "BONK", "FLOKI", "ARB", "OP", "LRC", "IMX"]

/-- `isDexScreenerListed(symbol)`: membership of the uppercased symbol in
the fixed allow-list. -/
def isDexScreenerListed (symbol : String) : Bool :=
  dexTokens.contains (jsToUpperCase symbol)

/-- Trend direction of a `MentionResult`. The first variant only produces
`up` and `down`; `neutral` appears in the data model of other variants. -/
inductive Trend
  | up
  | down
  | neutral
deriving DecidableEq

/-- One entry of the per-symbol rolling history:
`\x7b date, mentions \x7d` as stored by `calculateTrend`. -/
structure HistoryEntry where
  date : String
  mentions : ℕ
deriving DecidableEq

/-- Model of the `x.toFixed(1)` rendering: the rendered value expressed in
tenths. -/
def toFixedOneTenths (q : ℚ) : ℤ := round (q * 10)

/-- Upsert of today's entry: `findIndex` on the date, in-place mentions
update when found, push at the end otherwise. -/
def storeToday : List HistoryEntry → String → ℕ → List HistoryEntry
  | [], today, m => [⟨today, m⟩]
  | e :: rest, today, m =>
    if e.date = today then ⟨e.date, m⟩ :: rest
    else e :: storeToday rest today m

/-- Truncation `history.slice(-7)`: keep the most recent 7 entries. -/
def keepLast7 (l : List HistoryEntry) : List HistoryEntry :=
  l.drop (l.length - 7)

/-- Return value of `calculateTrend`: trend direction, rendered trend value
in tenths, and yesterday's mentions when a usable prior-day entry exists. -/
structure TrendData where
  trend : Trend
  trendValueTenths : ℤ
  yesterdayMentions : Option ℕ
deriving DecidableEq

/-- `calculateTrend(symbol, currentMentions)` with the ambient inputs made
explicit: the symbol's stored history, today's and yesterday's date strings,
and the two `Math.random()` draws of the no-history fallback. Returns the
trend data together with the updated history list. -/
def calculateTrend (history : List HistoryEntry) (today yesterday : String)
    (currentMentions : ℕ) (r1 r2 : ℚ) : TrendData × List HistoryEntry :=
  let yesterdayData := history.find? (fun e => e.date == yesterday)
  let newHistory := keepLast7 (storeToday history today currentMentions)
  match yesterdayData with
  | some yd =>
    if 0 < yd.mentions then
      let change : ℚ :=
        ((currentMentions : ℚ) - (yd.mentions : ℚ)) / (yd.mentions : ℚ) * 100
      (⟨if 0 ≤ change then Trend.up else Trend.down,
        toFixedOneTenths |change|, some yd.mentions⟩, newHistory)
    else
      (⟨if 1/2 < r1 then Trend.up else Trend.down,
        toFixedOneTenths (r2 * 15), none⟩, newHistory)
  | none =>
    (⟨if 1/2 < r1 then Trend.up else Trend.down,
      toFixedOneTenths (r2 * 15), none⟩, newHistory)

/-- One aggregated result object pushed into `results`. -/
structure MentionResult where
  symbol : String
  name : String
  mentions : ℕ
  trend : Trend
  trendValueTenths : ℤ
  yesterdayMentions : Option ℕ
  dexScreenerListed : Bool
  timestamp : ℤ
deriving DecidableEq

/-- One value of the `mentionsCache` map: the result batch and the store
time. -/
structure CacheEntry where
  data : List MentionResult
  timestamp : ℤ
deriving DecidableEq

/-- Model of `Map.prototype.set`: replace the binding of an existing key,
append a fresh binding otherwise. -/
def mapSet {β : Type} : List (String × β) → String → β → List (String × β)
  | [], k, v => [(k, v)]
  | (k₁, v₁) :: rest, k, v =>
    if k₁ == k then (k, v) :: rest else (k₁, v₁) :: mapSet rest k v

/-- Process-wide mutable state of the server. -/
structure ServerState where
  mentionsCache : List (String × CacheEntry)
  historicalData : List (String × List HistoryEntry)
  rateLimitResetTime : ℤ
  requestCount : ℕ
deriving DecidableEq

/-- Outcome of one upstream search call. -/
inductive UpstreamResp
  | ok (numItems : ℕ)
  | throttled
  | failed
  | threw
deriving DecidableEq

/-- JSON body sent by the handler, one optional field per key that some
branch of the handler writes. A key that a branch does not write is `none`. -/
structure ApiResponse where
  status : ℕ
  success : Option Bool
  data : Option (List MentionResult)
  totalSymbols : Option ℕ
  cached : Option Bool
  cacheAge : Option ℤ
  requestCount : Option ℕ
  rateLimited : Option Bool
  resetInMinutes : Option ℤ
  resetInSeconds : Option ℤ
  errorMsg : Option String
deriving DecidableEq

/-- Cache-hit response body. -/
def cacheHitResponse (e : CacheEntry) (now : ℤ) : ApiResponse :=
  { status := 200, success := some true, data := some e.data,
    totalSymbols := some e.data.length, cached := some true,
    cacheAge := some (round (((now - e.timestamp : ℤ) : ℚ) / 1000)),
    requestCount := none, rateLimited := none, resetInMinutes := none,
    resetInSeconds := none, errorMsg := none }

/-- Missing-credential response body (HTTP 400). -/
def configErrorResponse : ApiResponse :=
  { status := 400, success := none, data := none, totalSymbols := none,
    cached := none, cacheAge := none, requestCount := none,
    rateLimited := none, resetInMinutes := none, resetInSeconds := none,
    errorMsg := some "X_BEARER_TOKEN environment variable not set" }

/-- Rate-limited response body (HTTP 429). -/
def rateLimitedResponse (resetTime now : ℤ) : ApiResponse :=
  { status := 429, success := some false, data := none, totalSymbols := none,
    cached := none, cacheAge := none, requestCount := none,
    rateLimited := some true,
    resetInMinutes := some ⌈(((resetTime - now : ℤ) : ℚ) / (1000 * 60))⌉,
    resetInSeconds := some ⌈(((resetTime - now : ℤ) : ℚ) / 1000)⌉,
    errorMsg := some "Rate limited" }

/-- Fresh-fetch response body. Note that the source writes no `cached` key
on this path. -/
def freshResponse (results : List MentionResult) (rc : ℕ) : ApiResponse :=
  { status := 200, success := some true, data := some results,
    totalSymbols := some results.length, cached := none, cacheAge := none,
    requestCount := some rc, rateLimited := none, resetInMinutes := none,
    resetInSeconds := none, errorMsg := none }

/-- Loop state of the per-symbol fetch loop: accumulated results, the shared
counters, the history store, and the number of upstream calls issued. -/
structure LoopState where
  results : List MentionResult
  requestCount : ℕ
  rateLimitResetTime : ℤ
  historicalData : List (String × List HistoryEntry)
  upstreamCalls : ℕ
deriving DecidableEq

/-- Per-symbol fetch loop of the handler. For each symbol: break once the
window counter has reached `MAX_REQUESTS_PER_WINDOW` (setting the 15 minute
cooldown), otherwise increment the counter and issue the upstream call; on
success compute the trend and push a result, on HTTP 429 set the cooldown
and break, on any other failure skip the symbol. -/
def fetchLoop (oracle : ℕ → UpstreamResp) (rand : ℕ → ℚ × ℚ) (now : ℤ)
    (today yesterday : String) : List String → LoopState → LoopState
  | [], st => st
  | symbol :: rest, st =>
    if MAX_REQUESTS_PER_WINDOW ≤ st.requestCount then
      { st with rateLimitResetTime := now + COOLDOWN_MS }
    else
      let callIdx := st.upstreamCalls
      match oracle callIdx with
      | UpstreamResp.ok numItems =>
        let history := (st.historicalData.lookup symbol).getD []
        let r := rand callIdx
        let td := calculateTrend history today yesterday numItems r.1 r.2
        let result : MentionResult :=
          { symbol := jsToUpperCase symbol, name := getCoinName symbol,
            mentions := numItems, trend := td.1.trend,
            trendValueTenths := td.1.trendValueTenths,
            yesterdayMentions := td.1.yesterdayMentions,
            dexScreenerListed := isDexScreenerListed symbol,
            timestamp := now }
        fetchLoop oracle rand now today yesterday rest
          { results := st.results ++ [result],
            requestCount := st.requestCount + 1,
            rateLimitResetTime := st.rateLimitResetTime,
            historicalData := mapSet st.historicalData symbol td.2,
            upstreamCalls := callIdx + 1 }
      | UpstreamResp.throttled =>
        { st with requestCount := st.requestCount + 1,
                  rateLimitResetTime := now + COOLDOWN_MS,
                  upstreamCalls := callIdx + 1 }
      | UpstreamResp.failed =>
        fetchLoop oracle rand now today yesterday rest
          { st with requestCount := st.requestCount + 1,
                    upstreamCalls := callIdx + 1 }
      | UpstreamResp.threw =>
        fetchLoop oracle rand now today yesterday rest
          { st with requestCount := st.requestCount + 1,
                    upstreamCalls := callIdx + 1 }

/-- Stable descending sort by mentions, `results.sort((a, b) =>
b.mentions - a.mentions)`. -/
def sortByMentionsDesc (l : List MentionResult) : List MentionResult :=
  l.insertionSort (fun a b => b.mentions ≤ a.mentions)

/-- Fresh-fetch tail of the handler: run the loop over the (sorted) symbol
list, sort the accumulated results, write the batch to the cache under the
request's key, apply the final cooldown-elapsed reset, and build the fresh
response. Returns the response, the new server state, and the number of
upstream calls issued. -/
def freshRun (cacheKey : String) (symbolListSorted : List String)
    (oracle : ℕ → UpstreamResp) (rand : ℕ → ℚ × ℚ) (now : ℤ)
    (today yesterday : String) (st : ServerState) :
    ApiResponse × ServerState × ℕ :=
  let final := fetchLoop oracle rand now today yesterday symbolListSorted
    { results := [], requestCount := st.requestCount,
      rateLimitResetTime := st.rateLimitResetTime,
      historicalData := st.historicalData, upstreamCalls := 0 }
  let sorted := sortByMentionsDesc final.results
  let cache2 := mapSet st.mentionsCache cacheKey ⟨sorted, now⟩
  let rc2 := if final.rateLimitResetTime ≤ now then 0 else final.requestCount
  let rrt2 := if final.rateLimitResetTime ≤ now then 0
              else final.rateLimitResetTime
  (freshResponse sorted rc2,
   { mentionsCache := cache2, historicalData := final.historicalData,
     rateLimitResetTime := rrt2, requestCount := rc2 },
   final.upstreamCalls)

/-- Validity-checked cache lookup: a stored entry counts only while
`now - storedAt < CACHE_DURATION`; an expired entry is treated as absent. -/
def cacheLookupValid (cache : List (String × CacheEntry)) (key : String)
    (now : ℤ) : Option CacheEntry :=
  match cache.lookup key with
  | some e => if now - e.timestamp < CACHE_DURATION then some e else none
  | none => none

/-- Cache key of a request: cap the split symbol list at 8, sort it, join
with commas (`symbolList.sort().join(',')`, no case normalization). -/
def cacheKeyOf (symbolListRaw : List String) : String :=
  joinComma (sortStrings (symbolListRaw.take 8))

/-- Full `/api/x-mentions` handler on the already-split symbol list: cap at
8 symbols, compute the cache key (the in-place `sort()` also reorders the
iterated list), serve a valid cache entry, otherwise fail fast without a
credential, apply the cooldown auto-reset, reject while still cooling, and
otherwise run the fresh fetch. Returns the response, the new server state,
and the number of upstream calls issued. -/
def getMentions (symbolListRaw : List String) (tokenConfigured : Bool)
    (oracle : ℕ → UpstreamResp) (rand : ℕ → ℚ × ℚ) (now : ℤ)
    (today yesterday : String) (st : ServerState) :
    ApiResponse × ServerState × ℕ :=
  let sortedList := sortStrings (symbolListRaw.take 8)
  let cacheKey := joinComma sortedList
  match cacheLookupValid st.mentionsCache cacheKey now with
  | some e => (cacheHitResponse e now, st, 0)
  | none =>
    if tokenConfigured then
      let st1 :=
        if 0 < st.rateLimitResetTime ∧ st.rateLimitResetTime ≤ now then
          { st with rateLimitResetTime := 0, requestCount := 0 }
        else st
      if now < st1.rateLimitResetTime then
        (rateLimitedResponse st1.rateLimitResetTime now, st1, 0)
      else
        freshRun cacheKey sortedList oracle rand now today yesterday st1
    else
      (configErrorResponse, st, 0)

/-- Upstream oracle where every call fails with a non-throttling error
status (the symbol is skipped). -/
def oracleFail : ℕ → UpstreamResp := fun _ => UpstreamResp.failed

/-- Constant zero source for the `Math.random()` draws. -/
def randZero : ℕ → ℚ × ℚ := fun _ => (0, 0)

/-- Startup state: empty cache, empty history, cleared budget. -/
def emptyServerState : ServerState := ⟨[], [], 0, 0⟩

/-- State with a warm cache entry for the key "BTC" stored at time 100. -/
def warmState : ServerState := ⟨[("BTC", ⟨[], 100⟩)], [], 0, 0⟩

/-- State whose per-window request counter is already at the maximum. -/
def maxedState : ServerState := ⟨[], [], 0, 25⟩

theorem char_toNat_inj {a b : Char} (h : a.toNat = b.toNat) : a = b := by
  apply Char.ext
  apply UInt32.ext
  exact h

theorem string_data_inj {a b : String} (h : a.data = b.data) : a = b :=
  congrArg String.mk h

theorem charListLt_asymm :
    ∀ a b : List Char, charListLt a b = true → charListLt b a = false
  | [], [] => by simp [charListLt]
  | [], _ :: _ => by simp [charListLt]
  | _ :: _, [] => by simp [charListLt]
  | a :: as, b :: bs => by
    rcases Nat.lt_trichotomy a.toNat b.toNat with h | h | h
    · simp [charListLt, h, Nat.lt_asymm h]
    · simp only [charListLt, h, lt_self_iff_false, if_false]
      exact charListLt_asymm as bs
    · simp [charListLt, h, Nat.lt_asymm h]

theorem charListLt_trans :
    ∀ a b c : List Char, charListLt a b = true → charListLt b c = true →
      charListLt a c = true
  | [], [], _ => by simp [charListLt]
  | [], _ :: _, [] => by simp [charListLt]
  | [], _ :: _, _ :: _ => by simp [charListLt]
  | _ :: _, [], _ => by simp [charListLt]
  | _ :: _, _ :: _, [] => by simp [charListLt]
  | a :: as, b :: bs, c :: cs => by
    rcases Nat.lt_trichotomy a.toNat b.toNat with hab | hab | hab <;>
      rcases Nat.lt_trichotomy b.toNat c.toNat with hbc | hbc | hbc
    · simp [charListLt, hab, hbc, Nat.lt_trans hab hbc]
    · have hac : a.toNat < c.toNat := by omega
      simp [charListLt, hab, hbc, hac, Nat.lt_asymm hac]
    · simp [charListLt, hbc, Nat.lt_asymm hbc]
    · have hac : a.toNat < c.toNat := by omega
      simp [charListLt, hab, hbc, hac, Nat.lt_asymm hac]
    · simp only [charListLt, hab, hbc, lt_self_iff_false, if_false]
      exact charListLt_trans as bs cs
    · simp [charListLt, hab, hbc, Nat.lt_asymm hbc]
    · simp [charListLt, hab, Nat.lt_asymm hab]
    · simp [charListLt, hab, Nat.lt_asymm hab]
    · simp [charListLt, hab, Nat.lt_asymm hab]

theorem charListLt_connex :
    ∀ a b : List Char, charListLt a b = false → charListLt b a = false →
      a = b
  | [], [] => by simp
  | [], _ :: _ => by simp [charListLt]
  | _ :: _, [] => by simp [charListLt]
  | a :: as, b :: bs => by
    rcases Nat.lt_trichotomy a.toNat b.toNat with h | h | h
    · simp [charListLt, h]
    · intro h1 h2
      have e : a = b := char_toNat_inj h
      subst e
      simp only [charListLt, lt_self_iff_false, if_false] at h1 h2
      rw [charListLt_connex as bs h1 h2]
    · simp [charListLt, h, Nat.lt_asymm h]

theorem jsSortLe_iff {a b : String} :
    jsSortLe a b ↔ charListLt b.data a.data = false := by
  simp [jsSortLe, jsStringLe]

instance : IsTotal String jsSortLe := by
  constructor
  intro a b
  by_cases h : charListLt b.data a.data = true
  · right
    rw [jsSortLe_iff]
    exact charListLt_asymm _ _ h
  · left
    rw [jsSortLe_iff]
    exact Bool.not_eq_true _ ▸ Bool.of_not_eq_true h

instance : IsTrans String jsSortLe := by
  constructor
  intro a b c h1 h2
  rw [jsSortLe_iff] at h1 h2 ⊢
  by_cases hbc : charListLt b.data c.data = true
  · by_cases hca : charListLt c.data a.data = true
    · exact absurd (charListLt_trans _ _ _ hbc hca) (by rw [h1]; simp)
    · exact Bool.of_not_eq_true hca
  · have e := charListLt_connex _ _ h2 (Bool.of_not_eq_true hbc)
    rw [← e] at h1
    exact h1

instance : IsAntisymm String jsSortLe := by
  constructor
  intro a b h1 h2
  rw [jsSortLe_iff] at h1 h2
  exact string_data_inj (charListLt_connex _ _ h2 h1)

theorem sortStrings_eq_of_perm {l₁ l₂ : List String} (h : l₁.Perm l₂) :
    sortStrings l₁ = sortStrings l₂ := by
  apply List.eq_of_perm_of_sorted (r := jsSortLe)
  · exact ((List.perm_insertionSort jsSortLe l₁).trans h).trans
      (List.perm_insertionSort jsSortLe l₂).symm
  · exact List.sorted_insertionSort jsSortLe l₁
  · exact List.sorted_insertionSort jsSortLe l₂

theorem mapSet_lookup {β : Type} :
    ∀ (m : List (String × β)) (k : String) (v : β),
      (mapSet m k v).lookup k = some v
  | [], k, v => by simp [mapSet]
  | (k₁, v₁) :: rest, k, v => by
    by_cases h : k₁ = k
    · subst h
      simp [mapSet]
    · have hb : (k₁ == k) = false := by simp [h]
      have hb2 : (k == k₁) = false := by simp [Ne.symm h]
      simp only [mapSet, hb, if_false, List.lookup, hb2]
      exact mapSet_lookup rest k v

/-- Claim C1 counterexample: the cache key is not case-normalized. The
single-symbol requests "btc" and "BTC" are case-variants of the same symbol
set, yet the code-computed cache keys differ. -/
theorem c1_cacheKey_not_case_normalized :
    cacheKeyOf ["btc"] ≠ cacheKeyOf ["BTC"] := by decide

/-- Claim C1 (amended): the cache key is the sorted, comma-joined symbol
list with no case normalization, so any two requests whose (capped) symbol
lists are permutations of the same symbol set produce the identical cache
key, and a warm cache returns the same entry for both. -/
theorem c1_cacheKey_perm_invariant (l₁ l₂ : List String)
    (h : (l₁.take 8).Perm (l₂.take 8)) :
    cacheKeyOf l₁ = cacheKeyOf l₂ ∧
    ∀ (cache : List (String × CacheEntry)) (now : ℤ),
      cacheLookupValid cache (cacheKeyOf l₁) now =
        cacheLookupValid cache (cacheKeyOf l₂) now := by
  have e : cacheKeyOf l₁ = cacheKeyOf l₂ := by
    unfold cacheKeyOf
    rw [sortStrings_eq_of_perm h]
  exact ⟨e, fun cache now => by rw [e]⟩

/-- Claim C1 (amended) witness at the spec's example: "ETH,BTC" and
"BTC,ETH" produce the identical cache key. -/
theorem c1_cacheKey_perm_invariant_witness :
    cacheKeyOf ["ETH", "BTC"] = cacheKeyOf ["BTC", "ETH"] :=
  (c1_cacheKey_perm_invariant ["ETH", "BTC"] ["BTC", "ETH"] (by decide)).1

/-- Claim C7: after storing an entry at time T under a key, a lookup of the
same key at any time strictly before T + CACHE_DURATION is a hit returning
that entry, and a lookup at or after T + CACHE_DURATION is a miss. -/
theorem c7_cache_expiry_boundary (cache : List (String × CacheEntry))
    (key : String) (d : List MentionResult) (T now : ℤ) :
    (cacheLookupValid (mapSet cache key ⟨d, T⟩) key now = some ⟨d, T⟩ ↔
      now < T + CACHE_DURATION) ∧
    (cacheLookupValid (mapSet cache key ⟨d, T⟩) key now = none ↔
      T + CACHE_DURATION ≤ now) := by
  have h := mapSet_lookup cache key (⟨d, T⟩ : CacheEntry)
  simp only [cacheLookupValid, h]
  by_cases hc : now - T < CACHE_DURATION
  · rw [if_pos hc]
    constructor
    · constructor
      · intro _; omega
      · intro _; rfl
    · constructor
      · intro hx; exact absurd hx (by simp)
      · intro hx; omega
  · rw [if_neg hc]
    constructor
    · constructor
      · intro hx; exact absurd hx (by simp)
      · intro hx; omega
    · constructor
      · intro _; omega
      · intro _; rfl

/-- Claim C7 witness: an entry stored at T = 0 is a hit at 599999 ms
(T + D − 1) and a miss at 600000 ms (T + D). -/
theorem c7_cache_expiry_boundary_witness :
    cacheLookupValid (mapSet [] "BTC" ⟨[], 0⟩) "BTC" 599999 = some ⟨[], 0⟩ ∧
    cacheLookupValid (mapSet [] "BTC" ⟨[], 0⟩) "BTC" 600000 = none := by
  constructor
  · exact (c7_cache_expiry_boundary [] "BTC" [] 0 599999).1.mpr (by decide)
  · exact (c7_cache_expiry_boundary [] "BTC" [] 0 600000).2.mpr (by decide)

/-- Claim C2: once the per-window request counter has reached
MAX_REQUESTS_PER_WINDOW at the start of a loop iteration, the loop issues
no further upstream calls, appends no further results (the remaining
symbols are absent), and sets the cooldown deadline to now + 15 minutes;
the deadline lies strictly after now, so the end-of-run reset check leaves
the budget in cooling. -/
theorem c2_budget_exhausted_stops_loop (oracle : ℕ → UpstreamResp)
    (rand : ℕ → ℚ × ℚ) (now : ℤ) (today yesterday symbol : String)
    (rest : List String) (st : LoopState)
    (h : MAX_REQUESTS_PER_WINDOW ≤ st.requestCount) :
    fetchLoop oracle rand now today yesterday (symbol :: rest) st =
      { st with rateLimitResetTime := now + COOLDOWN_MS } ∧
    now < now + COOLDOWN_MS := by
  constructor
  · unfold fetchLoop
    rw [if_pos h]
  · have hpos : (0 : ℤ) < COOLDOWN_MS := by decide
    omega

/-- Claim C2 witness: with the counter at 25 the loop over one remaining
symbol stops immediately, leaving zero upstream calls and empty results,
and sets the cooldown deadline. -/
theorem c2_budget_exhausted_stops_loop_witness :
    fetchLoop (fun _ => UpstreamResp.ok 3) randZero 0 "d2" "d1" ["BTC"]
        ⟨[], 25, 0, [], 0⟩ =
      { (⟨[], 25, 0, [], 0⟩ : LoopState) with
          rateLimitResetTime := 0 + COOLDOWN_MS } ∧
    (0 : ℤ) < 0 + COOLDOWN_MS :=
  c2_budget_exhausted_stops_loop (fun _ => UpstreamResp.ok 3) randZero 0
    "d2" "d1" "BTC" [] ⟨[], 25, 0, [], 0⟩ (by decide)

/-- Claim C3 counterexample: a fresh (non-cache-hit) run produces a 200
success response with a requestCount field but with NO cached key at all —
the source writes no `cached = false` on the fresh path. -/
theorem c3_fresh_response_lacks_cached_flag :
    (getMentions ["BTC"] true oracleFail randZero 0 "d2" "d1"
        emptyServerState).1.status = 200 ∧
    (getMentions ["BTC"] true oracleFail randZero 0 "d2" "d1"
        emptyServerState).1.success = some true ∧
    (getMentions ["BTC"] true oracleFail randZero 0 "d2" "d1"
        emptyServerState).1.cached = none := by
  refine ⟨by decide, by decide, by decide⟩

/-- Claim C3 (amended): a request that hits a valid cache entry is answered
with that entry's cache-hit response — tagged `cached = true`, carrying the
computed cache age `round((now - storedAt) / 1000)`, with the state
untouched and zero upstream calls — while a request that misses the cache
(so the fresh path runs, or the credential / rate-limit guard answers)
produces a response that carries no cached flag at all. -/
theorem c3_cached_flag_by_path (raw : List String) (tok : Bool)
    (oracle : ℕ → UpstreamResp) (rand : ℕ → ℚ × ℚ) (now : ℤ)
    (today yesterday : String) (st : ServerState) :
    (∀ e, cacheLookupValid st.mentionsCache
        (joinComma (sortStrings (raw.take 8))) now = some e →
      getMentions raw tok oracle rand now today yesterday st =
        (cacheHitResponse e now, st, 0) ∧
      (cacheHitResponse e now).cached = some true ∧
      (cacheHitResponse e now).cacheAge =
        some (round (((now - e.timestamp : ℤ) : ℚ) / 1000)) ∧
      (getMentions raw tok oracle rand now today yesterday st).2.2 = 0) ∧
    (cacheLookupValid st.mentionsCache
        (joinComma (sortStrings (raw.take 8))) now = none →
      (getMentions raw tok oracle rand now today yesterday st).1.cached =
        none) := by
  constructor
  · intro e he
    have hres : getMentions raw tok oracle rand now today yesterday st =
        (cacheHitResponse e now, st, 0) := by
      simp only [getMentions]
      rw [he]
    refine ⟨hres, rfl, rfl, by rw [hres]⟩
  · intro h
    simp only [getMentions]
    rw [h]
    by_cases ht : tok
    · simp only [ht, if_true]
      by_cases hr :
          now < (if 0 < st.rateLimitResetTime ∧ st.rateLimitResetTime ≤ now
            then { st with rateLimitResetTime := 0, requestCount := 0 }
            else st).rateLimitResetTime
      · simp [hr, rateLimitedResponse]
      · simp [hr, freshRun, freshResponse]
    · simp [ht, configErrorResponse]

/-- Claim C3 (amended) witness: a warm-cache request is answered by the
cache-hit response with cached = true, cache age 0 seconds and zero
upstream calls, while a cold-cache fresh request's response carries no
cached flag. -/
theorem c3_cached_flag_by_path_witness :
    (getMentions ["BTC"] true oracleFail randZero 100 "d2" "d1" warmState =
      (cacheHitResponse ⟨[], 100⟩ 100, warmState, 0) ∧
     (cacheHitResponse ⟨[], 100⟩ 100).cached = some true ∧
     (cacheHitResponse ⟨[], 100⟩ 100).cacheAge =
       some (round (((100 - (100 : ℤ) : ℤ) : ℚ) / 1000)) ∧
     (getMentions ["BTC"] true oracleFail randZero 100 "d2" "d1"
       warmState).2.2 = 0) ∧
    (getMentions ["BTC"] true oracleFail randZero 0 "d2" "d1"
        emptyServerState).1.cached = none :=
  ⟨(c3_cached_flag_by_path ["BTC"] true oracleFail randZero 100 "d2" "d1"
      warmState).1 ⟨[], 100⟩ (by decide),
   (c3_cached_flag_by_path ["BTC"] true oracleFail randZero 0 "d2" "d1"
      emptyServerState).2 (by decide)⟩

/-- Claim C4: when the stored history holds a prior-day entry with positive
mentions, calculateTrend returns the percentage change
(current − previous) / previous × 100 rendered as: trend up iff the change
is ≥ 0, trendValue the absolute change rendered to one decimal place, and
yesterdayMentions the prior-day count. -/
theorem c4_trend_with_history (history : List HistoryEntry)
    (today yesterday : String) (c : ℕ) (r1 r2 : ℚ) (yd : HistoryEntry)
    (hfind : history.find? (fun e => e.date == yesterday) = some yd)
    (hpos : 0 < yd.mentions) :
    (calculateTrend history today yesterday c r1 r2).1 =
      ⟨if 0 ≤ ((c : ℚ) - (yd.mentions : ℚ)) / (yd.mentions : ℚ) * 100
          then Trend.up else Trend.down,
        toFixedOneTenths
          |((c : ℚ) - (yd.mentions : ℚ)) / (yd.mentions : ℚ) * 100|,
        some yd.mentions⟩ := by
  unfold calculateTrend
  simp only [hfind, hpos, if_true]

/-- Claim C4 witness at the spec's example: yesterday 100 mentions, today
150 gives trend up, trendValue 50.0 (500 tenths), yesterdayMentions 100. -/
theorem c4_trend_with_history_witness :
    (calculateTrend [⟨"Mon", 100⟩] "Tue" "Mon" 150 0 0).1 =
      ⟨Trend.up, 500, some 100⟩ := by
  have h := c4_trend_with_history [⟨"Mon", 100⟩] "Tue" "Mon" 150 0 0
    ⟨"Mon", 100⟩ (by decide) (by decide)
  rw [h]
  norm_num [toFixedOneTenths, round_eq]

/-- Claim C5 counterexample: with no history and the admissible random draw
r2 = 999/1000, the rendered fallback trendValue is exactly 15.0 (150
tenths), which is outside the claimed half-open interval [0.0, 15.0):
`(Math.random() * 15).toFixed(1)` rounds values of 14.95 and above up to
"15.0". -/
theorem c5_trend_fallback_reaches_15 :
    0 ≤ (999 / 1000 : ℚ) ∧ (999 / 1000 : ℚ) < 1 ∧
    (calculateTrend [] "Tue" "Mon" 5 0 (999 / 1000)).1.trendValueTenths =
      150 ∧
    ¬ (calculateTrend [] "Tue" "Mon" 5 0 (999 / 1000)).1.trendValueTenths <
      150 := by
  have he :
      (calculateTrend [] "Tue" "Mon" 5 0 (999 / 1000)).1.trendValueTenths =
        150 := by
    norm_num [calculateTrend, toFixedOneTenths, round_eq]
  refine ⟨by norm_num, by norm_num, he, by rw [he]; omega⟩

/-- Claim C5 (amended): with no usable prior-day entry and random inputs in
[0, 1), the fallback returns trend up or down, a rendered trendValue of one
decimal place in the closed interval [0.0, 15.0] (the right endpoint is
reachable by rounding), and no yesterdayMentions. -/
theorem c5_trend_fallback_bounds (history : List HistoryEntry)
    (today yesterday : String) (c : ℕ) (r1 r2 : ℚ)
    (hnone : ∀ yd, history.find? (fun e => e.date == yesterday) = some yd →
      yd.mentions = 0)
    (h0 : 0 ≤ r2) (h1 : r2 < 1) :
    ((calculateTrend history today yesterday c r1 r2).1.trend = Trend.up ∨
     (calculateTrend history today yesterday c r1 r2).1.trend =
       Trend.down) ∧
    0 ≤ (calculateTrend history today yesterday c r1 r2).1.trendValueTenths ∧
    (calculateTrend history today yesterday c r1 r2).1.trendValueTenths ≤
      150 ∧
    (calculateTrend history today yesterday c r1 r2).1.yesterdayMentions =
      none := by
  have hval : (calculateTrend history today yesterday c r1 r2).1 =
      ⟨if 1/2 < r1 then Trend.up else Trend.down,
        toFixedOneTenths (r2 * 15), none⟩ := by
    unfold calculateTrend
    cases hfind : history.find? (fun e => e.date == yesterday) with
    | some yd =>
      have hz := hnone yd hfind
      simp [hz]
    | none => simp
  rw [hval]
  refine ⟨?_, ?_, ?_, rfl⟩
  · by_cases hr : 1/2 < r1
    · left
      show (if 1/2 < r1 then Trend.up else Trend.down) = Trend.up
      rw [if_pos hr]
    · right
      show (if 1/2 < r1 then Trend.up else Trend.down) = Trend.down
      rw [if_neg hr]
  · show (0 : ℤ) ≤ toFixedOneTenths (r2 * 15)
    unfold toFixedOneTenths
    rw [round_eq]
    apply Int.floor_nonneg.mpr
    nlinarith
  · show toFixedOneTenths (r2 * 15) ≤ 150
    unfold toFixedOneTenths
    rw [round_eq]
    have hlt : r2 * 15 * 10 + 1 / 2 < ((151 : ℤ) : ℚ) := by
      push_cast
      nlinarith
    have h2 : ⌊r2 * 15 * 10 + 1 / 2⌋ < (151 : ℤ) := Int.floor_lt.mpr hlt
    omega

/-- Claim C5 (amended) witness: with empty history and r2 = 1/2 the
fallback yields a trend in up/down, tenths within [0, 150], and no
yesterdayMentions. -/
theorem c5_trend_fallback_bounds_witness :
    ((calculateTrend [] "Tue" "Mon" 5 0 (1/2)).1.trend = Trend.up ∨
     (calculateTrend [] "Tue" "Mon" 5 0 (1/2)).1.trend = Trend.down) ∧
    0 ≤ (calculateTrend [] "Tue" "Mon" 5 0 (1/2)).1.trendValueTenths ∧
    (calculateTrend [] "Tue" "Mon" 5 0 (1/2)).1.trendValueTenths ≤ 150 ∧
    (calculateTrend [] "Tue" "Mon" 5 0 (1/2)).1.yesterdayMentions = none :=
  c5_trend_fallback_bounds [] "Tue" "Mon" 5 0 (1/2) (by simp)
    (by norm_num) (by norm_num)

/-- Claim C6: after any call to calculateTrend the stored per-symbol
history has at most 7 entries, and what is kept is a suffix of the upserted
list — the oldest entries are the ones evicted. -/
theorem c6_history_bounded (history : List HistoryEntry)
    (today yesterday : String) (c : ℕ) (r1 r2 : ℚ) :
    (calculateTrend history today yesterday c r1 r2).2.length ≤ 7 ∧
    (calculateTrend history today yesterday c r1 r2).2 <:+
      storeToday history today c := by
  have hval : (calculateTrend history today yesterday c r1 r2).2 =
      keepLast7 (storeToday history today c) := by
    unfold calculateTrend
    cases hfind : history.find? (fun e => e.date == yesterday) with
    | some yd =>
      by_cases hz : 0 < yd.mentions
      · simp [hz]
      · simp [hz]
    | none => simp
  rw [hval]
  constructor
  · unfold keepLast7
    rw [List.length_drop]
    omega
  · exact List.drop_suffix _ _

/-- Claim C8 counterexample: with a warm cache entry for the requested key,
a request made while the credential is NOT configured is served from the
cache with a 200 success response instead of the 400 configuration error,
because the cache check precedes the credential check. -/
theorem c8_missing_token_cache_hit :
    (getMentions ["BTC"] false oracleFail randZero 100 "d2" "d1"
        warmState).1.status = 200 ∧
    (getMentions ["BTC"] false oracleFail randZero 100 "d2" "d1"
        warmState).1.success = some true ∧
    (getMentions ["BTC"] false oracleFail randZero 100 "d2" "d1"
        warmState).1.cached = some true := by
  refine ⟨by decide, by decide, by decide⟩

/-- Claim C8 (amended): every cache-miss request made while the upstream
credential is not configured returns the 400 configuration-error response,
leaves the server state unchanged, and issues zero upstream calls. -/
theorem c8_missing_token_config_error (raw : List String)
    (oracle : ℕ → UpstreamResp) (rand : ℕ → ℚ × ℚ) (now : ℤ)
    (today yesterday : String) (st : ServerState)
    (hmiss : cacheLookupValid st.mentionsCache
        (joinComma (sortStrings (raw.take 8))) now = none) :
    getMentions raw false oracle rand now today yesterday st =
      (configErrorResponse, st, 0) ∧
    configErrorResponse.status = 400 := by
  constructor
  · unfold getMentions
    simp only [hmiss, if_false, Bool.false_eq_true]
  · rfl

/-- Claim C8 (amended) witness: on the startup state with no credential,
the request for "BTC" yields the 400 configuration error and no upstream
calls. -/
theorem c8_missing_token_config_error_witness :
    getMentions ["BTC"] false oracleFail randZero 0 "d2" "d1"
        emptyServerState = (configErrorResponse, emptyServerState, 0) ∧
    configErrorResponse.status = 400 :=
  c8_missing_token_config_error ["BTC"] oracleFail randZero 0 "d2" "d1"
    emptyServerState (by decide)

/-- Claim C9: at the end of every fresh-fetch run whose final state has the
cooldown deadline at or before now — in particular the common case of
deadline 0 — the shared request counter has been reset to zero, so the
per-window counter never carries over between consecutive fresh-fetch
requests that do not end in cooldown. -/
theorem c9_counter_reset_after_fresh_run (cacheKey : String)
    (syms : List String) (oracle : ℕ → UpstreamResp) (rand : ℕ → ℚ × ℚ)
    (now : ℤ) (today yesterday : String) (st : ServerState)
    (h : (freshRun cacheKey syms oracle rand now today yesterday
        st).2.1.rateLimitResetTime ≤ now) :
    (freshRun cacheKey syms oracle rand now today yesterday
        st).2.1.requestCount = 0 := by
  unfold freshRun at h ⊢
  by_cases hc : (fetchLoop oracle rand now today yesterday syms
      { results := [], requestCount := st.requestCount,
        rateLimitResetTime := st.rateLimitResetTime,
        historicalData := st.historicalData,
        upstreamCalls := 0 }).rateLimitResetTime ≤ now
  · simp only [if_pos hc]
  · simp only [if_neg hc] at h
    exact absurd h hc

/-- Claim C9 witness: a concrete fresh run whose loop never triggers a
cooldown ends with the counter reset to zero. -/
theorem c9_counter_reset_after_fresh_run_witness :
    (freshRun "BTC" ["BTC"] oracleFail randZero 0 "d2" "d1"
        emptyServerState).2.1.requestCount = 0 :=
  c9_counter_reset_after_fresh_run "BTC" ["BTC"] oracleFail randZero 0
    "d2" "d1" emptyServerState (by decide)

/-- Claim C10: every fresh-fetch run writes its accumulated batch to the
cache under the request's key unconditionally — an empty batch included —
and while the entry is fresh any request with the same key is served from
the cache as a success response with cached = true carrying exactly that
batch. -/
theorem c10_cache_write_unconditional (cacheKey : String)
    (syms : List String) (oracle : ℕ → UpstreamResp) (rand : ℕ → ℚ × ℚ)
    (now : ℤ) (today yesterday : String) (st : ServerState)
    (d : List MentionResult)
    (hdata : (freshRun cacheKey syms oracle rand now today yesterday
        st).1.data = some d) :
    (freshRun cacheKey syms oracle rand now today yesterday
        st).2.1.mentionsCache.lookup cacheKey = some ⟨d, now⟩ ∧
    ∀ (raw₂ : List String) (tok₂ : Bool) (oracle₂ : ℕ → UpstreamResp)
      (rand₂ : ℕ → ℚ × ℚ) (now₂ : ℤ) (t₂ y₂ : String),
      joinComma (sortStrings (raw₂.take 8)) = cacheKey →
      now₂ - now < CACHE_DURATION →
      getMentions raw₂ tok₂ oracle₂ rand₂ now₂ t₂ y₂
          (freshRun cacheKey syms oracle rand now today yesterday st).2.1 =
        (cacheHitResponse ⟨d, now⟩ now₂,
         (freshRun cacheKey syms oracle rand now today yesterday st).2.1,
         0) ∧
      (cacheHitResponse ⟨d, now⟩ now₂).success = some true ∧
      (cacheHitResponse ⟨d, now⟩ now₂).cached = some true ∧
      (cacheHitResponse ⟨d, now⟩ now₂).data = some d := by
  have hd : d = sortByMentionsDesc (fetchLoop oracle rand now today
      yesterday syms
      { results := [], requestCount := st.requestCount,
        rateLimitResetTime := st.rateLimitResetTime,
        historicalData := st.historicalData,
        upstreamCalls := 0 }).results := by
    unfold freshRun at hdata
    simp only [freshResponse] at hdata
    exact (Option.some_injective _ hdata).symm
  have hcache : (freshRun cacheKey syms oracle rand now today yesterday
      st).2.1.mentionsCache.lookup cacheKey = some ⟨d, now⟩ := by
    unfold freshRun
    rw [hd]
    exact mapSet_lookup _ _ _
  refine ⟨hcache, ?_⟩
  intro raw₂ tok₂ oracle₂ rand₂ now₂ t₂ y₂ hkey hfresh
  refine ⟨?_, rfl, rfl, rfl⟩
  have hvalid : cacheLookupValid
      (freshRun cacheKey syms oracle rand now today yesterday
        st).2.1.mentionsCache cacheKey now₂ = some ⟨d, now⟩ := by
    unfold cacheLookupValid
    rw [hcache]
    simp only [if_pos hfresh]
  simp only [getMentions]
  rw [hkey, hvalid]

/-- Claim C10 witness: a fresh run that exhausts the budget immediately
caches an empty batch, and one millisecond later the same key is served
from the cache as a success with cached = true and data = []. -/
theorem c10_cache_write_unconditional_witness :
    (freshRun "BTC" ["BTC"] oracleFail randZero 0 "d2" "d1"
        maxedState).2.1.mentionsCache.lookup "BTC" = some ⟨[], 0⟩ ∧
    getMentions ["BTC"] true oracleFail randZero 1 "d2" "d1"
        (freshRun "BTC" ["BTC"] oracleFail randZero 0 "d2" "d1"
          maxedState).2.1 =
      (cacheHitResponse ⟨[], 0⟩ 1,
       (freshRun "BTC" ["BTC"] oracleFail randZero 0 "d2" "d1"
         maxedState).2.1, 0) := by
  have h := c10_cache_write_unconditional "BTC" ["BTC"] oracleFail randZero
    0 "d2" "d1" maxedState [] (by decide)
  exact ⟨h.1, (h.2 ["BTC"] true oracleFail randZero 1 "d2" "d1" (by decide)
    (by decide)).1⟩
